import Mathlib

/-!
Verification of the event-loop management module (`loop.py`).

The module defines three event-loop factory variants (`UvloopFactory`,
`WindowsLoopFactory`, `DefaultLoopFactory`) and a selector class
`EventLoopManager` that, at construction time, lower-cases the host platform
name and picks a factory: `WindowsLoopFactory` on "windows" (without probing
uvloop), otherwise `UvloopFactory` when `import uvloop` succeeds and
`DefaultLoopFactory` (with a printed advisory) when the import raises
`ImportError`.  `setup` installs the factory's policy, creates a loop,
installs it as current, prints a confirmation and returns the loop.
`get_info` returns a snapshot dictionary with a live uvloop re-probe.

The embedding below passes the runtime environment (platform string,
whether `import uvloop` currently succeeds, the interpreter version), and
threads the process-wide asyncio registrations (policy, current loop) and the
console output as explicit state.  Each `import uvloop` is modelled by the
boolean field `uvloopAvailable`: the import either succeeds or raises the
`ImportError` that the source checks for.
-/

namespace Seashell

/-- Host environment as seen by `loop.py` at a given moment: the result of
`platform.system()`, whether `import uvloop` currently succeeds, the
components of `sys.version_info` used by the code, and the string
`platform.python_version()` returns. -/
structure Env where
  platformRaw : String
  uvloopAvailable : Bool
  pyMajor : Nat
  pyMinor : Nat
  pyVersionString : String
  deriving DecidableEq, Repr

/-- The Python exceptions that the modelled code can raise. -/
inductive PyError where
  | importError
  deriving DecidableEq, Repr

/-- Event-loop policy objects that the factories can produce. -/
inductive Policy where
  | uvloopEventLoopPolicy
  | windowsProactorEventLoopPolicy
  | defaultEventLoopPolicy
  deriving DecidableEq, Repr

/-- The kind of event loop constructed (which constructor produced it). -/
inductive LoopKind where
  | uvloopLoop
  | proactorLoop
  | standardLoop
  deriving DecidableEq, Repr

/-- An event-loop instance: `id` is a freshness tag distinguishing distinct
instances (each call to a `create_loop` method makes a brand-new object),
`kind` records which implementation it is. -/
structure EventLoop where
  id : Nat
  kind : LoopKind
  deriving DecidableEq, Repr

/-- The three concrete `LoopFactory` subclasses of `loop.py`. -/
inductive LoopFactory where
  | UvloopFactory
  | WindowsLoopFactory
  | DefaultLoopFactory
  deriving DecidableEq, Repr

/-- Python `__class__.__name__` for each factory, as used by `setup` and
`get_info`. -/
def LoopFactory.className : LoopFactory → String
  | .UvloopFactory => "UvloopFactory"
  | .WindowsLoopFactory => "WindowsLoopFactory"
  | .DefaultLoopFactory => "DefaultLoopFactory"

/-- The test `sys.version_info >= (3, 8)` of `WindowsLoopFactory`:
lexicographic comparison of the (major, minor) version against (3, 8). -/
def versionAtLeast38 (major minor : Nat) : Bool :=
  Nat.blt 3 major || (major == 3 && Nat.ble 8 minor)

/-- `get_policy` of each factory.  `UvloopFactory.get_policy` runs the
uvloop import and so raises `ImportError` when uvloop is unavailable at
call time; `WindowsLoopFactory.get_policy` branches on the interpreter
version; `DefaultLoopFactory.get_policy` always returns the default policy. -/
def LoopFactory.get_policy : LoopFactory → Env → Except PyError Policy
  | .UvloopFactory, env =>
      if env.uvloopAvailable then .ok .uvloopEventLoopPolicy
      else .error .importError
  | .WindowsLoopFactory, env =>
      .ok (if versionAtLeast38 env.pyMajor env.pyMinor then
             .windowsProactorEventLoopPolicy
           else .defaultEventLoopPolicy)
  | .DefaultLoopFactory, _ => .ok .defaultEventLoopPolicy

/-- `create_loop` of each factory; `fresh` is the identity tag of the newly
constructed loop object.  `UvloopFactory.create_loop` runs `import uvloop`
and raises `ImportError` when uvloop is unavailable at call time;
`WindowsLoopFactory.create_loop` makes a proactor-policy loop on version
at least 3.8 and a standard `asyncio.new_event_loop()` otherwise. -/
def LoopFactory.create_loop : LoopFactory → Env → Nat → Except PyError EventLoop
  | .UvloopFactory, env, fresh =>
      if env.uvloopAvailable then .ok ⟨fresh, .uvloopLoop⟩
      else .error .importError
  | .WindowsLoopFactory, env, fresh =>
      .ok ⟨fresh, if versionAtLeast38 env.pyMajor env.pyMinor then
                    .proactorLoop
                  else .standardLoop⟩
  | .DefaultLoopFactory, _, fresh => .ok ⟨fresh, .standardLoop⟩

/-- Python's `str.lower()`, applied characterwise to the string's
characters (the platform names at issue are ASCII). -/
def pyLower (s : String) : String :=
  ⟨s.data.map Char.toLower⟩

/-- The advisory line printed by `_get_factory` when uvloop is missing. -/
def fallbackNotice : String :=
  "⚠️  uvloop is not available, falling back to default event loop"

/-- The `EventLoopManager` object: its two attributes, set by `__init__` and
never assigned again. -/
structure EventLoopManager where
  system : String
  factory : LoopFactory
  deriving DecidableEq, Repr

/-- `EventLoopManager._get_factory`, run on the already lower-cased system
string.  Besides the chosen factory it records the console output produced
and whether the `import uvloop` probe was attempted (the source returns
`WindowsLoopFactory` before reaching the `try` block). -/
def getFactory (system : String) (env : Env) : LoopFactory × List String × Bool :=
  if system == "windows" then
    (.WindowsLoopFactory, [], false)
  else if env.uvloopAvailable then
    (.UvloopFactory, [], true)
  else
    (.DefaultLoopFactory, [fallbackNotice], true)

/-- Result of constructing an `EventLoopManager`: the object, the console
output emitted during construction, and whether the uvloop probe ran. -/
structure InitResult where
  manager : EventLoopManager
  output : List String
  probeAttempted : Bool
  deriving DecidableEq, Repr

/-- `EventLoopManager.__init__`: lower-case `platform.system()` and select
the factory with `_get_factory`.  Construction is total: the only probe
failure the source meets, `ImportError`, is caught inside `_get_factory`. -/
def EventLoopManager.init (env : Env) : InitResult :=
  let system := pyLower env.platformRaw
  let r := getFactory system env
  ⟨⟨system, r.1⟩, r.2.1, r.2.2⟩

/-- Process-wide mutable state touched by `setup`: the asyncio event-loop
policy registration, the current-event-loop registration, a counter
supplying fresh loop identities, and the console output so far. -/
structure ProcState where
  policy : Option Policy
  currentLoop : Option EventLoop
  nextLoopId : Nat
  output : List String
  deriving DecidableEq, Repr

/-- The confirmation line printed by `setup`. -/
def setupMessage (m : EventLoopManager) : String :=
  "✅ System: " ++ m.system ++ ", Using: " ++ m.factory.className

/-- `EventLoopManager.setup`: get the policy from the selected factory and
install it, create a loop from the same factory and install it as current,
print the confirmation and return the loop.  Exceptions are not caught, so
an error outcome carries the state as mutated up to the raising call; the
returned manager is the object's post-state (no attribute is assigned). -/
def EventLoopManager.setup (m : EventLoopManager) (env : Env) (s : ProcState) :
    Except PyError EventLoop × EventLoopManager × ProcState :=
  match m.factory.get_policy env with
  | .error e => (.error e, m, s)
  | .ok policy =>
    let s1 : ProcState := { s with policy := some policy }
    match m.factory.create_loop env s1.nextLoopId with
    | .error e => (.error e, m, s1)
    | .ok loop =>
      (.ok loop, m,
        { s1 with
          currentLoop := some loop
          nextLoopId := s1.nextLoopId + 1
          output := s1.output ++ [setupMessage m] })

/-- `EventLoopManager._is_uvloop_available`: `import uvloop` under
`try/except ImportError`, reporting whether the import succeeded now. -/
def isUvloopAvailable (env : Env) : Bool :=
  env.uvloopAvailable

/-- The dictionary returned by `EventLoopManager.get_info`. -/
structure LoopInfo where
  system : String
  factory : String
  uvloop_available : Bool
  python_version : String
  deriving DecidableEq, Repr

/-- `EventLoopManager.get_info`: snapshot of the stored attributes plus a
live uvloop re-probe and the interpreter version, both read from the
environment at call time. -/
def EventLoopManager.get_info (m : EventLoopManager) (env : Env) : LoopInfo :=
  ⟨m.system, m.factory.className, isUvloopAvailable env, env.pyVersionString⟩

/-- The public operations callable on a constructed manager. -/
inductive ManagerOp where
  | opSetup
  | opGetInfo
  deriving DecidableEq, Repr

/-- Run one public operation, in the environment current at that moment,
on the manager object and the process state. -/
def runOp (op : ManagerOp) (env : Env) (ms : EventLoopManager × ProcState) :
    EventLoopManager × ProcState :=
  match op with
  | .opSetup =>
      let r := ms.1.setup env ms.2
      (r.2.1, r.2.2)
  | .opGetInfo =>
      let _info := ms.1.get_info env
      ms

/-- Run a sequence of public operations, each with the environment current
at its call. -/
def runOps (ops : List (ManagerOp × Env)) (ms : EventLoopManager × ProcState) :
    EventLoopManager × ProcState :=
  ops.foldl (fun acc oe => runOp oe.1 oe.2 acc) ms

/-- Atomicity of one `setup` call: on success both the policy and the
current-loop registration hold the freshly produced values, and the
registered current loop is the returned loop; on failure the process
state is exactly as before the call. -/
def setupAtomic (m : EventLoopManager) (env : Env) (s : ProcState) : Prop :=
  match m.setup env s with
  | (.ok loop, _, sf) => sf.policy.isSome ∧ sf.currentLoop = some loop
  | (.error _, _, sf) => sf = s

/-- Concrete environment: Linux host, uvloop importable, Python 3.12. -/
def envLinuxUv : Env := ⟨"Linux", true, 3, 12, "3.12.0"⟩

/-- Concrete environment: Linux host, uvloop not importable, Python 3.12. -/
def envLinuxNoUv : Env := ⟨"Linux", false, 3, 12, "3.12.0"⟩

/-- Concrete environment: Windows host, uvloop importable, Python 3.12. -/
def envWindowsUv : Env := ⟨"Windows", true, 3, 12, "3.12.0"⟩

/-- Concrete environment: Windows host, uvloop not importable, Python 3.12. -/
def envWindowsNoUv : Env := ⟨"Windows", false, 3, 12, "3.12.0"⟩

/-- Concrete manager holding the default factory. -/
def mgrDefault : EventLoopManager := ⟨"linux", .DefaultLoopFactory⟩

/-- Concrete manager holding the uvloop factory. -/
def mgrUvloop : EventLoopManager := ⟨"linux", .UvloopFactory⟩

/-- Concrete initial process state: nothing registered, no output yet. -/
def state0 : ProcState := ⟨none, none, 0, []⟩

/-- The boolean version test of the source agrees with the arithmetic
statement that (major, minor) is lexicographically at least (3, 8). -/
theorem versionAtLeast38_iff (major minor : Nat) :
    versionAtLeast38 major minor = true ↔
      3 < major ∨ (major = 3 ∧ 8 ≤ minor) := by
  unfold versionAtLeast38
  simp [Nat.blt_eq, Nat.ble_eq]

/-- Complete characterisation of `setup` by the outcomes of the two factory
calls it makes. -/
theorem setup_eq (m : EventLoopManager) (env : Env) (s : ProcState) :
    m.setup env s =
      match m.factory.get_policy env, m.factory.create_loop env s.nextLoopId with
      | .error e, _ => (.error e, m, s)
      | .ok p, .error e => (.error e, m, { s with policy := some p })
      | .ok p, .ok loop =>
        (.ok loop, m,
          ⟨some p, some loop, s.nextLoopId + 1, s.output ++ [setupMessage m]⟩) := by
  unfold EventLoopManager.setup
  cases hp : m.factory.get_policy env with
  | error e => rfl
  | ok p =>
    cases hc : m.factory.create_loop env s.nextLoopId with
    | error e => simp [hc]
    | ok l => simp [hc]

/-- `setup` assigns no attribute of the manager object. -/
theorem setup_preserves_self (m : EventLoopManager) (env : Env) (s : ProcState) :
    (m.setup env s).2.1 = m := by
  rw [setup_eq]
  cases hp : m.factory.get_policy env with
  | error e => rfl
  | ok p =>
    cases hc : m.factory.create_loop env s.nextLoopId with
    | error e => rfl
    | ok l => rfl

/-- Neither public operation changes the manager object. -/
theorem runOp_fst (op : ManagerOp) (env : Env) (ms : EventLoopManager × ProcState) :
    (runOp op env ms).1 = ms.1 := by
  cases op with
  | opSetup => exact setup_preserves_self ms.1 env ms.2
  | opGetInfo => rfl

/-- No sequence of public operations changes the manager object. -/
theorem runOps_fst (ops : List (ManagerOp × Env)) (ms : EventLoopManager × ProcState) :
    (runOps ops ms).1 = ms.1 := by
  induction ops generalizing ms with
  | nil => rfl
  | cons oe rest ih =>
    have hstep : runOps (oe :: rest) ms = runOps rest (runOp oe.1 oe.2 ms) := rfl
    rw [hstep, ih, runOp_fst]

/-- C1: for every platform identifier other than "windows", construction
selects `UvloopFactory` when uvloop is importable and `DefaultLoopFactory`
when it is not. -/
theorem c1_nonwindows_selection (env : Env)
    (h : pyLower env.platformRaw ≠ "windows") :
    (EventLoopManager.init env).manager.factory =
      (if env.uvloopAvailable then .UvloopFactory else .DefaultLoopFactory) := by
  have hb : (pyLower env.platformRaw == "windows") = false :=
    beq_eq_false_iff_ne.mpr h
  unfold EventLoopManager.init getFactory
  cases hu : env.uvloopAvailable <;> simp [hb, hu]

/-- Witness for C1: on a Linux host with uvloop importable the selected
factory is `UvloopFactory`. -/
theorem c1_witness :
    pyLower envLinuxUv.platformRaw ≠ "windows" ∧
    (EventLoopManager.init envLinuxUv).manager.factory =
      (if envLinuxUv.uvloopAvailable then .UvloopFactory else .DefaultLoopFactory) :=
  ⟨by decide, c1_nonwindows_selection envLinuxUv (by decide)⟩

/-- C2: for platform identifier "windows", construction selects
`WindowsLoopFactory` whatever the uvloop availability, and the uvloop
probe is never attempted (the source returns before the `try`). -/
theorem c2_windows_selection_skips_probe (env : Env)
    (h : pyLower env.platformRaw = "windows") :
    (EventLoopManager.init env).manager.factory = .WindowsLoopFactory ∧
    (EventLoopManager.init env).probeAttempted = false := by
  unfold EventLoopManager.init getFactory
  simp [h]

/-- Witness for C2: on a Windows host with uvloop importable the selection
is `WindowsLoopFactory` and the probe is skipped. -/
theorem c2_witness :
    pyLower envWindowsUv.platformRaw = "windows" ∧
    ((EventLoopManager.init envWindowsUv).manager.factory = .WindowsLoopFactory ∧
     (EventLoopManager.init envWindowsUv).probeAttempted = false) :=
  ⟨by decide, c2_windows_selection_skips_probe envWindowsUv (by decide)⟩

/-- C3: a successful `setup` call installs exactly the policy obtained from
the selected factory, creates a brand-new loop (fresh identity, counter
advanced) from the same factory, installs that loop as the process-wide
current loop, appends the confirmation line, and the installed loop is the
returned one.  The starting state `s` is arbitrary, so this holds after any
number of earlier `setup` calls. -/
theorem c3_setup_postcondition (m : EventLoopManager) (env : Env)
    (s : ProcState) (loop : EventLoop) (mf : EventLoopManager) (sf : ProcState)
    (h : m.setup env s = (.ok loop, mf, sf)) :
    (∃ p, m.factory.get_policy env = .ok p ∧ sf.policy = some p) ∧
    m.factory.create_loop env s.nextLoopId = .ok loop ∧
    sf.currentLoop = some loop ∧
    sf.nextLoopId = s.nextLoopId + 1 ∧
    sf.output = s.output ++ [setupMessage m] := by
  cases hp : m.factory.get_policy env with
  | error e =>
    rw [setup_eq, hp] at h
    simp at h
  | ok p =>
    cases hc : m.factory.create_loop env s.nextLoopId with
    | error e =>
      rw [setup_eq, hp, hc] at h
      simp at h
    | ok l =>
      rw [setup_eq, hp, hc] at h
      simp only [Prod.mk.injEq, Except.ok.injEq] at h
      obtain ⟨hl, hm, hs⟩ := h
      subst hl
      subst hs
      exact ⟨⟨p, rfl, rfl⟩, rfl, rfl, rfl, rfl⟩

/-- Process state after one `setup` of the default factory from `state0`. -/
def stateAfterDefaultSetup : ProcState :=
  ⟨some .defaultEventLoopPolicy, some ⟨0, .standardLoop⟩, 1, [setupMessage mgrDefault]⟩

/-- Witness for C3: running `setup` with the default factory from the empty
state installs the default policy and the new loop and returns that loop. -/
theorem c3_witness :
    mgrDefault.setup envLinuxUv state0 =
      (.ok ⟨0, .standardLoop⟩, mgrDefault, stateAfterDefaultSetup) ∧
    ((∃ p, mgrDefault.factory.get_policy envLinuxUv = .ok p ∧
        stateAfterDefaultSetup.policy = some p) ∧
     mgrDefault.factory.create_loop envLinuxUv state0.nextLoopId =
        .ok ⟨0, .standardLoop⟩ ∧
     stateAfterDefaultSetup.currentLoop = some ⟨0, .standardLoop⟩ ∧
     stateAfterDefaultSetup.nextLoopId = state0.nextLoopId + 1 ∧
     stateAfterDefaultSetup.output = state0.output ++ [setupMessage mgrDefault]) :=
  ⟨rfl, c3_setup_postcondition mgrDefault envLinuxUv state0 ⟨0, .standardLoop⟩
      mgrDefault stateAfterDefaultSetup rfl⟩

/-- C4: when the platform is not "windows" and the uvloop probe fails,
construction selects `DefaultLoopFactory` and emits exactly the advisory
notice; `EventLoopManager.init` is total, so no detection failure reaches
the constructor's caller. -/
theorem c4_probe_failure_recovery (env : Env)
    (h1 : pyLower env.platformRaw ≠ "windows")
    (h2 : env.uvloopAvailable = false) :
    (EventLoopManager.init env).manager.factory = .DefaultLoopFactory ∧
    (EventLoopManager.init env).output = [fallbackNotice] := by
  have hb : (pyLower env.platformRaw == "windows") = false :=
    beq_eq_false_iff_ne.mpr h1
  unfold EventLoopManager.init getFactory
  simp [hb, h2]

/-- Witness for C4: Linux host without uvloop falls back to the default
factory and prints the advisory. -/
theorem c4_witness :
    (pyLower envLinuxNoUv.platformRaw ≠ "windows" ∧
     envLinuxNoUv.uvloopAvailable = false) ∧
    ((EventLoopManager.init envLinuxNoUv).manager.factory = .DefaultLoopFactory ∧
     (EventLoopManager.init envLinuxNoUv).output = [fallbackNotice]) :=
  ⟨⟨by decide, rfl⟩, c4_probe_failure_recovery envLinuxNoUv (by decide) rfl⟩

/-- C5: `setup` is atomic with respect to the process-wide registrations:
on success both the policy and the current loop are installed and the
installed loop is the returned one; on failure the process state is exactly
the state before the call.  The branch of the source where `create_loop`
raises after the policy was installed is proved unreachable: for every
factory, `get_policy` and `create_loop` fail under exactly the same
condition within one call's environment. -/
theorem c5_setup_atomicity (m : EventLoopManager) (env : Env) (s : ProcState) :
    setupAtomic m env s := by
  unfold setupAtomic
  cases hf : m.factory with
  | UvloopFactory =>
    cases hu : env.uvloopAvailable with
    | false =>
      rw [setup_eq, hf]
      simp [LoopFactory.get_policy, LoopFactory.create_loop, hu]
    | true =>
      rw [setup_eq, hf]
      simp [LoopFactory.get_policy, LoopFactory.create_loop, hu]
  | WindowsLoopFactory =>
    rw [setup_eq, hf]
    simp [LoopFactory.get_policy, LoopFactory.create_loop]
  | DefaultLoopFactory =>
    rw [setup_eq, hf]
    simp [LoopFactory.get_policy, LoopFactory.create_loop]

/-- C6: if the selected factory is `UvloopFactory` and uvloop is no longer
importable when `setup` runs, `setup` raises the `ImportError` to its
caller: the error outcome is returned unchanged, no registration happens,
and the manager still holds the same factory (no re-detection or retry). -/
theorem c6_construction_failure_propagates (m : EventLoopManager) (env : Env)
    (s : ProcState) (hf : m.factory = .UvloopFactory)
    (hu : env.uvloopAvailable = false) :
    m.setup env s = (.error .importError, m, s) := by
  rw [setup_eq, hf]
  simp [LoopFactory.get_policy, LoopFactory.create_loop, hu]

/-- Witness for C6: a manager that selected uvloop on a host that has since
lost uvloop raises `ImportError` out of `setup`. -/
theorem c6_witness :
    (mgrUvloop.factory = .UvloopFactory ∧
     envLinuxNoUv.uvloopAvailable = false) ∧
    mgrUvloop.setup envLinuxNoUv state0 =
      (.error .importError, mgrUvloop, state0) :=
  ⟨⟨rfl, rfl⟩, c6_construction_failure_propagates mgrUvloop envLinuxNoUv state0 rfl rfl⟩

/-- C7: after any sequence of `setup` and `get_info` calls, in arbitrary
(even changing) environments, `get_info` reports the same `system` and
`factory` fields as immediately after construction, whatever environment
each query runs in: the selection is immutable and `get_info` re-runs no
detection. -/
theorem c7_get_info_fields_stable (m : EventLoopManager) (s : ProcState)
    (ops : List (ManagerOp × Env)) (e1 e2 : Env) :
    ((runOps ops (m, s)).1.get_info e1).system = (m.get_info e2).system ∧
    ((runOps ops (m, s)).1.get_info e1).factory = (m.get_info e2).factory := by
  rw [runOps_fst]
  exact ⟨rfl, rfl⟩

/-- C8: `WindowsLoopFactory` is gated on the interpreter version being at
least 3.8: at or above it, `get_policy` yields the Windows proactor policy
and `create_loop` a loop built from that policy; below it, both fall back
to the default policy and a standard new event loop. -/
theorem c8_windows_version_gate (env : Env) (fresh : Nat) :
    ((3 < env.pyMajor ∨ (env.pyMajor = 3 ∧ 8 ≤ env.pyMinor)) →
      LoopFactory.WindowsLoopFactory.get_policy env =
        .ok .windowsProactorEventLoopPolicy ∧
      LoopFactory.WindowsLoopFactory.create_loop env fresh =
        .ok ⟨fresh, .proactorLoop⟩) ∧
    (¬(3 < env.pyMajor ∨ (env.pyMajor = 3 ∧ 8 ≤ env.pyMinor)) →
      LoopFactory.WindowsLoopFactory.get_policy env =
        .ok .defaultEventLoopPolicy ∧
      LoopFactory.WindowsLoopFactory.create_loop env fresh =
        .ok ⟨fresh, .standardLoop⟩) := by
  constructor
  · intro h
    have hv : versionAtLeast38 env.pyMajor env.pyMinor = true :=
      (versionAtLeast38_iff env.pyMajor env.pyMinor).mpr h
    simp [LoopFactory.get_policy, LoopFactory.create_loop, hv]
  · intro h
    have hv : versionAtLeast38 env.pyMajor env.pyMinor = false := by
      rcases hb : versionAtLeast38 env.pyMajor env.pyMinor with _ | _
      · rfl
      · exact absurd ((versionAtLeast38_iff env.pyMajor env.pyMinor).mp hb) h
    simp [LoopFactory.get_policy, LoopFactory.create_loop, hv]

/-- Witness for C8: on Python 3.12 the proactor branch is taken. -/
theorem c8_witness :
    (3 < envWindowsUv.pyMajor ∨ (envWindowsUv.pyMajor = 3 ∧ 8 ≤ envWindowsUv.pyMinor)) ∧
    (LoopFactory.WindowsLoopFactory.get_policy envWindowsUv =
        .ok .windowsProactorEventLoopPolicy ∧
     LoopFactory.WindowsLoopFactory.create_loop envWindowsUv 0 =
        .ok ⟨0, .proactorLoop⟩) :=
  ⟨by decide, (c8_windows_version_gate envWindowsUv 0).1 (by decide)⟩

/-- C9: the `uvloop_available` field of `get_info` is a live re-probe: for
a manager built in environment `e1` and queried in environment `e2`, it
reports `e2`'s uvloop availability, whatever was selected; and on
"windows" the `factory` field stays `WindowsLoopFactory` regardless of
either probe result. -/
theorem c9_uvloop_available_live (e1 e2 : Env) :
    ((EventLoopManager.init e1).manager.get_info e2).uvloop_available =
      e2.uvloopAvailable ∧
    (pyLower e1.platformRaw = "windows" →
      ((EventLoopManager.init e1).manager.get_info e2).factory =
        "WindowsLoopFactory") := by
  constructor
  · rfl
  · intro h
    unfold EventLoopManager.init getFactory
    simp [h, EventLoopManager.get_info, LoopFactory.className]

/-- Witness for C9: built on Windows without uvloop, queried when uvloop
has become importable: the field reports `true` while the factory field
still names `WindowsLoopFactory`. -/
theorem c9_witness :
    (((EventLoopManager.init envWindowsNoUv).manager.get_info envWindowsUv).uvloop_available =
      envWindowsUv.uvloopAvailable) ∧
    pyLower envWindowsNoUv.platformRaw = "windows" ∧
    ((EventLoopManager.init envWindowsNoUv).manager.get_info envWindowsUv).factory =
      "WindowsLoopFactory" :=
  ⟨(c9_uvloop_available_live envWindowsNoUv envWindowsUv).1, by decide,
   (c9_uvloop_available_live envWindowsNoUv envWindowsUv).2 (by decide)⟩

/-- C10: no public operation mutates the manager: any sequence of `setup`
and `get_info` calls, in arbitrary environments, leaves the manager object
(both `system` and the identity of `factory`) exactly as the constructor
set it. -/
theorem c10_no_mutation (m : EventLoopManager) (s : ProcState)
    (ops : List (ManagerOp × Env)) :
    (runOps ops (m, s)).1 = m :=
  runOps_fst ops (m, s)

end Seashell
